import Mathlib

/-!
Verification development for `plot_training.py`, a script that reads the
training log `train-log.csv`, renders four diagnostic charts into a 2x2
figure, saves it as `training_metrics.png` (150 DPI, tight bounding box),
prints a confirmation line and finally shows the figure.

The script is embedded shallowly: the working directory is modelled by the
optional content of `train-log.csv`, the pandas data frame by a header plus
a list of rows of cells, the matplotlib figure by a record of axes and
series carrying exactly the styling the script sets, and the observable
effects of a run by a list of events (lines printed, files written, figure
shown).  Library behaviour that the script relies on is modelled at the
granularity the script observes it: `pd.read_csv` raises `EmptyDataError`
on a zero-byte file and `ParserError` on a row longer than the header,
`df[c]` raises `KeyError` when column `c` is absent, and plotting a column
that still holds unparsed strings raises an uncaught conversion error.
-/

namespace PlotTraining

/-- A CSV cell as pandas materialises it after parsing: a parsed number, a
missing value (NaN, as filled in for a short row), or an unparsed string. -/
inductive Cell
  | num (x : Rat)
  | nan
  | str (s : String)
deriving DecidableEq

/-- Content of the file `train-log.csv` when it exists: either a zero-byte
file, or a tokenised CSV consisting of a header row and data rows. -/
inductive FileContent
  | emptyFile
  | table (header : List String) (rows : List (List Cell))
deriving DecidableEq

/-- The runtime errors the script can run into but does not catch: the
`try` block only catches `FileNotFoundError`. -/
inductive PyError
  | emptyDataError
  | parserError
  | keyError (col : String)
  | typeError
deriving DecidableEq

/-- The in-memory table returned by `pd.read_csv`. -/
structure DataFrame where
  header : List String
  rows : List (List Cell)
deriving DecidableEq

/-- Model of `pd.read_csv` on the content of an existing file: a zero-byte
file raises `EmptyDataError`; a data row with more fields than the header
raises a `ParserError`; otherwise the table is loaded as is (short rows are
NaN-filled on access, see `seriesOf`). -/
def read_csv : FileContent → Except PyError DataFrame
  | .emptyFile => .error .emptyDataError
  | .table header rows =>
    if rows.any (fun r => header.length < r.length) then .error .parserError
    else .ok ⟨header, rows⟩

/-- Model of `df.empty`: true when the frame has zero data rows. -/
def DataFrame.empty (df : DataFrame) : Bool :=
  df.rows.isEmpty

/-- Conversion of one cell to a plottable value: numbers and NaN plot
(NaN as a gap, modelled by `none`), a leftover string raises the
conversion error. -/
def cellVal : Cell → Except PyError (Option Rat)
  | .num x => .ok (some x)
  | .nan => .ok none
  | .str _ => .error .typeError

/-- Values of the column at index `idx`, row by row; a row too short to
reach `idx` contributes NaN, mirroring the NaN fill of `pd.read_csv`. -/
def seriesOf : List (List Cell) → Nat → Except PyError (List (Option Rat))
  | [], _ => .ok []
  | r :: rs, idx =>
    match cellVal (r.getD idx Cell.nan) with
    | .error e => .error e
    | .ok v =>
      match seriesOf rs idx with
      | .error e => .error e
      | .ok vs => .ok (v :: vs)

/-- Model of `df[name]` followed by plotting: `KeyError` if the column is
absent from the header, otherwise the values of the column. -/
def DataFrame.colNum (df : DataFrame) (name : String) : Except PyError (List (Option Rat)) :=
  match df.header.findIdx? (fun h => h == name) with
  | none => .error (.keyError name)
  | some idx => seriesOf df.rows idx

/-- One plotted line, with the keyword styling the script passes to
`ax.plot`. -/
structure Series where
  xs : List (Option Rat)
  ys : List (Option Rat)
  label : Option String
  color : Option String
  linewidth : Rat
  alpha : Option Rat
deriving DecidableEq

/-- One subplot, with the labels, title, legend and grid the script sets. -/
structure Axes where
  series : List Series
  xlabel : Option String
  ylabel : Option String
  title : Option String
  legendOn : Bool
  gridOn : Bool
  gridAlpha : Option Rat
deriving DecidableEq

/-- The whole figure: the subplot grid of `plt.subplots(2, 2)`, the figure
size and the suptitle. -/
structure Figure where
  nrows : Nat
  ncols : Nat
  figsizeW : Rat
  figsizeH : Rat
  suptitle : Option String
  axes : List (List Axes)
deriving DecidableEq

/-- Default line width of `ax.plot` when no `linewidth` keyword is given
(matplotlib rcParam `lines.linewidth`). -/
def defaultLinewidth : Rat := 3 / 2

/-- The figure the script builds from the six extracted columns, one field
per styling call in the source: rewards with the Avg100 overlay at the top
left, loss top right, epsilon bottom left, throughput bottom right. -/
def mkFigure (ep rw av ls eps sps : List (Option Rat)) : Figure :=
  { nrows := 2, ncols := 2
    figsizeW := 14, figsizeH := 10
    suptitle := some "Breakout RL Training Metrics"
    axes :=
      [[ { series := [
             { xs := ep, ys := rw, label := some "Episode Reward", color := none,
               linewidth := defaultLinewidth, alpha := some (3 / 5) },
             { xs := ep, ys := av, label := some "Avg100 Reward", color := some "orange",
               linewidth := 2, alpha := none } ],
           xlabel := some "Episode", ylabel := some "Reward", title := some "Rewards",
           legendOn := true, gridOn := true, gridAlpha := some (3 / 10) },
         { series := [
             { xs := ep, ys := ls, label := none, color := some "red",
               linewidth := defaultLinewidth, alpha := some (7 / 10) } ],
           xlabel := some "Episode", ylabel := some "Loss (EMA)",
           title := some "Training Loss",
           legendOn := false, gridOn := true, gridAlpha := some (3 / 10) } ],
       [ { series := [
             { xs := ep, ys := eps, label := none, color := some "green",
               linewidth := defaultLinewidth, alpha := none } ],
           xlabel := some "Episode", ylabel := some "Epsilon",
           title := some "Exploration Rate Decay",
           legendOn := false, gridOn := true, gridAlpha := some (3 / 10) },
         { series := [
             { xs := ep, ys := sps, label := none, color := some "purple",
               linewidth := defaultLinewidth, alpha := some (7 / 10) } ],
           xlabel := some "Episode", ylabel := some "Steps/Second",
           title := some "Training Throughput",
           legendOn := false, gridOn := true, gridAlpha := some (3 / 10) } ]] }

/-- The plotting section of the script, lines 22 to 58: extract the six
columns (first failure propagates, in the order of the source accesses)
and assemble the styled figure.  The source fetches `df[episode]` once per
subplot call; the fetches are pure and identical, so they are hoisted into
a single one. -/
def buildFigure (df : DataFrame) : Except PyError Figure :=
  match df.colNum "episode" with
  | .error e => .error e
  | .ok ep =>
    match df.colNum "reward" with
    | .error e => .error e
    | .ok rw =>
      match df.colNum "avg100" with
      | .error e => .error e
      | .ok av =>
        match df.colNum "loss" with
        | .error e => .error e
        | .ok ls =>
          match df.colNum "epsilon" with
          | .error e => .error e
          | .ok eps =>
            match df.colNum "steps_per_sec" with
            | .error e => .error e
            | .ok sps => .ok (mkFigure ep rw av ls eps sps)

/-- An observable effect of a run: a line printed to standard output, a
file written by `plt.savefig` (with its keyword arguments), or the figure
shown by `plt.show`. -/
inductive Event
  | printed (s : String)
  | wroteFile (name : String) (fig : Figure) (dpi : Nat) (bbox_inches : String)
  | showed
deriving DecidableEq

/-- How a run ends: a controlled termination with an exit code (0 when the
script falls off the end, 1 via `sys.exit(1)`), or an uncaught Python
exception.  Either way the events emitted up to that point are recorded. -/
inductive Outcome
  | exit (code : Nat) (events : List Event)
  | uncaught (e : PyError) (events : List Event)
deriving DecidableEq

/-- Events emitted by a run, whichever way it ended. -/
def eventsOf : Outcome → List Event
  | .exit _ evs => evs
  | .uncaught _ evs => evs

/-- The whole script, top to bottom.  The input is the content of
`train-log.csv` in the working directory (`none` when the file does not
exist, in which case `pd.read_csv` raises `FileNotFoundError` and the
`except` branch runs). -/
def plot_training (fs : Option FileContent) : Outcome :=
  match fs with
  | none => .exit 1 [.printed "Error: train-log.csv not found. Run training first."]
  | some fc =>
    match read_csv fc with
    | .error e => .uncaught e []
    | .ok df =>
      if df.empty then .exit 1 [.printed "Error: train-log.csv is empty."]
      else
        match buildFigure df with
        | .error e => .uncaught e []
        | .ok fig =>
          .exit 0 [.wroteFile "training_metrics.png" fig 150 "tight",
                   .printed "✓ Saved visualization to training_metrics.png",
                   .showed]

/-- The six columns the script reads from the frame. -/
def requiredCols : List String := ["episode", "reward", "avg100", "loss", "epsilon", "steps_per_sec"]

/-- True when a cell is numeric (a number or NaN): plotting it does not
raise. -/
def Cell.isNumeric : Cell → Bool
  | .str _ => false
  | _ => true

/-- True when the cell of row `r` in the column at index `idx` is numeric. -/
def numericAt (r : List Cell) (idx : Nat) : Bool :=
  (r.getD idx Cell.nan).isNumeric

/-- True when column `c` is present in the header and every row holds a
numeric value for it. -/
def colOk (header : List String) (rows : List (List Cell)) (c : String) : Bool :=
  match header.findIdx? (fun h => h == c) with
  | none => false
  | some idx => rows.all (fun r => numericAt r idx)

/-- True when all six required columns are present and numeric. -/
def colsOk (header : List String) (rows : List (List Cell)) : Bool :=
  requiredCols.all (colOk header rows)

/-- A well-formed input file: a table with at least one data row, no row
longer than the header, and the six required columns present and fully
numeric. -/
def wellFormed : FileContent → Bool
  | .emptyFile => false
  | .table header rows =>
    !rows.isEmpty && rows.all (fun r => r.length ≤ header.length) && colsOk header rows

/-- Extracting a column succeeds when every row is numeric at its index. -/
lemma seriesOf_ok (rows : List (List Cell)) (idx : Nat)
    (h : rows.all (fun r => numericAt r idx) = true) :
    ∃ vs, seriesOf rows idx = .ok vs := by
  induction rows with
  | nil => exact ⟨[], rfl⟩
  | cons r rs ih =>
    rw [List.all_cons, Bool.and_eq_true] at h
    obtain ⟨vs, hvs⟩ := ih h.2
    cases hc : r.getD idx Cell.nan with
    | num x => exact ⟨some x :: vs, by simp only [seriesOf, hc, cellVal, hvs]⟩
    | nan => exact ⟨none :: vs, by simp only [seriesOf, hc, cellVal, hvs]⟩
    | str s =>
      have h1 := h.1
      rw [numericAt, hc] at h1
      exact absurd h1 (by simp [Cell.isNumeric])

/-- Conversely, a successful extraction certifies every row numeric. -/
lemma all_numericAt_of_seriesOf_ok (rows : List (List Cell)) (idx : Nat) (vs : List (Option Rat))
    (h : seriesOf rows idx = .ok vs) :
    rows.all (fun r => numericAt r idx) = true := by
  induction rows generalizing vs with
  | nil => rfl
  | cons r rs ih =>
    rw [List.all_cons, Bool.and_eq_true]
    cases hc : r.getD idx Cell.nan with
    | str s =>
      simp only [seriesOf, hc, cellVal] at h
      exact absurd h (by simp)
    | num x =>
      simp only [seriesOf, hc, cellVal] at h
      cases hs : seriesOf rs idx with
      | error e => rw [hs] at h; exact absurd h (by simp)
      | ok ws =>
        exact ⟨by rw [numericAt, hc]; rfl, ih ws hs⟩
    | nan =>
      simp only [seriesOf, hc, cellVal] at h
      cases hs : seriesOf rs idx with
      | error e => rw [hs] at h; exact absurd h (by simp)
      | ok ws =>
        exact ⟨by rw [numericAt, hc]; rfl, ih ws hs⟩

/-- A column passing `colOk` is extracted successfully by `colNum`. -/
lemma colNum_ok_of_colOk (header : List String) (rows : List (List Cell)) (c : String)
    (h : colOk header rows c = true) :
    ∃ vs, DataFrame.colNum ⟨header, rows⟩ c = .ok vs := by
  unfold colOk at h
  cases hf : header.findIdx? (fun x => x == c) with
  | none => rw [hf] at h; exact absurd h (by simp)
  | some idx =>
    rw [hf] at h
    obtain ⟨vs, hvs⟩ := seriesOf_ok rows idx h
    exact ⟨vs, by simp [DataFrame.colNum, hf, hvs]⟩

/-- A successful `colNum` certifies `colOk` for that column. -/
lemma colOk_of_colNum_ok (header : List String) (rows : List (List Cell)) (c : String)
    (vs : List (Option Rat)) (h : DataFrame.colNum ⟨header, rows⟩ c = .ok vs) :
    colOk header rows c = true := by
  unfold DataFrame.colNum at h
  cases hf : header.findIdx? (fun x => x == c) with
  | none => rw [hf] at h; exact absurd h (by simp)
  | some idx =>
    rw [hf] at h
    simp only [colOk, hf]
    exact all_numericAt_of_seriesOf_ok rows idx vs h

/-- A figure is only built when all six required columns check out. -/
lemma colsOk_of_buildFigure_ok (header : List String) (rows : List (List Cell)) (fig : Figure)
    (h : buildFigure ⟨header, rows⟩ = .ok fig) :
    colsOk header rows = true := by
  unfold buildFigure at h
  cases h1 : DataFrame.colNum ⟨header, rows⟩ "episode" with
  | error e => rw [h1] at h; exact absurd h (by simp)
  | ok ep =>
  rw [h1] at h
  cases h2 : DataFrame.colNum ⟨header, rows⟩ "reward" with
  | error e => rw [h2] at h; exact absurd h (by simp)
  | ok rw2 =>
  rw [h2] at h
  cases h3 : DataFrame.colNum ⟨header, rows⟩ "avg100" with
  | error e => rw [h3] at h; exact absurd h (by simp)
  | ok av =>
  rw [h3] at h
  cases h4 : DataFrame.colNum ⟨header, rows⟩ "loss" with
  | error e => rw [h4] at h; exact absurd h (by simp)
  | ok ls =>
  rw [h4] at h
  cases h5 : DataFrame.colNum ⟨header, rows⟩ "epsilon" with
  | error e => rw [h5] at h; exact absurd h (by simp)
  | ok eps =>
  rw [h5] at h
  cases h6 : DataFrame.colNum ⟨header, rows⟩ "steps_per_sec" with
  | error e => rw [h6] at h; exact absurd h (by simp)
  | ok sps =>
  simp only [colsOk, requiredCols, List.all_cons, List.all_nil, Bool.and_eq_true, and_true]
  exact ⟨colOk_of_colNum_ok _ _ _ _ h1, colOk_of_colNum_ok _ _ _ _ h2,
    colOk_of_colNum_ok _ _ _ _ h3, colOk_of_colNum_ok _ _ _ _ h4,
    colOk_of_colNum_ok _ _ _ _ h5, colOk_of_colNum_ok _ _ _ _ h6⟩

/-- On a well-formed table, the run reaches the success tail of the
script: one `savefig`, one confirmation line, one `show`, exit code 0. -/
lemma plot_success (header : List String) (rows : List (List Cell))
    (hwf : wellFormed (FileContent.table header rows) = true) :
    ∃ ep rw av ls eps sps,
      plot_training (some (.table header rows)) =
        Outcome.exit 0
          [Event.wroteFile "training_metrics.png" (mkFigure ep rw av ls eps sps) 150 "tight",
           Event.printed "✓ Saved visualization to training_metrics.png",
           Event.showed] := by
  rw [wellFormed, Bool.and_eq_true, Bool.and_eq_true] at hwf
  obtain ⟨⟨hne, hlen⟩, hcols⟩ := hwf
  have hany : rows.any (fun r => decide (header.length < r.length)) = false := by
    cases hh : rows.any (fun r => decide (header.length < r.length)) with
    | false => rfl
    | true =>
      obtain ⟨r, hr, hlt⟩ := List.any_eq_true.mp hh
      have hle := List.all_eq_true.mp hlen r hr
      simp at hle hlt
      omega
  have hread : read_csv (.table header rows) = .ok ⟨header, rows⟩ := by
    rw [read_csv, hany]
    rfl
  simp only [colsOk, requiredCols, List.all_cons, List.all_nil, Bool.and_eq_true,
    and_true] at hcols
  obtain ⟨c1, c2, c3, c4, c5, c6⟩ := hcols
  obtain ⟨ep, h1⟩ := colNum_ok_of_colOk header rows "episode" c1
  obtain ⟨rw2, h2⟩ := colNum_ok_of_colOk header rows "reward" c2
  obtain ⟨av, h3⟩ := colNum_ok_of_colOk header rows "avg100" c3
  obtain ⟨ls, h4⟩ := colNum_ok_of_colOk header rows "loss" c4
  obtain ⟨eps, h5⟩ := colNum_ok_of_colOk header rows "epsilon" c5
  obtain ⟨sps, h6⟩ := colNum_ok_of_colOk header rows "steps_per_sec" c6
  refine ⟨ep, rw2, av, ls, eps, sps, ?_⟩
  rw [Bool.not_eq_true'] at hne
  simp only [plot_training, hread, DataFrame.empty, hne, Bool.false_eq_true, if_false,
    buildFigure, h1, h2, h3, h4, h5, h6]

/-- Every run ends in one of four event shapes: the not-found message, no
events at all (an uncaught exception), the empty-table message, or the
save-print-show success tail. -/
lemma plot_shape (fs : Option FileContent) :
    eventsOf (plot_training fs) =
        [Event.printed "Error: train-log.csv not found. Run training first."] ∨
      eventsOf (plot_training fs) = [] ∨
      eventsOf (plot_training fs) = [Event.printed "Error: train-log.csv is empty."] ∨
      ∃ fig, eventsOf (plot_training fs) =
        [Event.wroteFile "training_metrics.png" fig 150 "tight",
         Event.printed "✓ Saved visualization to training_metrics.png",
         Event.showed] := by
  cases fs with
  | none => exact Or.inl rfl
  | some fc =>
    cases hread : read_csv fc with
    | error e =>
      refine Or.inr (Or.inl ?_)
      simp only [plot_training, hread, eventsOf]
    | ok df =>
      cases hemp : df.empty with
      | true =>
        refine Or.inr (Or.inr (Or.inl ?_))
        simp only [plot_training, hread, hemp, if_true, eventsOf]
      | false =>
        cases hbf : buildFigure df with
        | error e =>
          refine Or.inr (Or.inl ?_)
          simp only [plot_training, hread, hemp, Bool.false_eq_true, if_false, hbf, eventsOf]
        | ok fig =>
          refine Or.inr (Or.inr (Or.inr ⟨fig, ?_⟩))
          simp only [plot_training, hread, hemp, Bool.false_eq_true, if_false, hbf, eventsOf]

/-- The per-subplot styling the spec promises: both axis labels, a title,
and translucent grid lines all set. -/
def axStyled (a : Axes) : Prop :=
  a.xlabel.isSome = true ∧ a.ylabel.isSome = true ∧ a.title.isSome = true ∧
    a.gridOn = true ∧ a.gridAlpha = some (3 / 10)

/-- The reward subplot: a legend, and exactly two series — the episode
reward and the Avg100 overlay, the latter heavier and in its own color. -/
def rewardAxStyled (a : Axes) : Prop :=
  a.legendOn = true ∧
    match a.series with
    | [s1, s2] =>
      s1.label = some "Episode Reward" ∧ s2.label = some "Avg100 Reward" ∧
        s1.linewidth < s2.linewidth ∧ s1.color ≠ s2.color
    | _ => False

/-- The figure layout the spec promises: a 2x2 grid of styled subplots,
the first overlaying the two reward series. -/
def figProps (fig : Figure) : Prop :=
  fig.nrows = 2 ∧ fig.ncols = 2 ∧
    match fig.axes with
    | [[a00, a01], [a10, a11]] =>
      axStyled a00 ∧ axStyled a01 ∧ axStyled a10 ∧ axStyled a11 ∧ rewardAxStyled a00
    | _ => False

/-- Whatever data is plotted, the built figure has the promised layout. -/
lemma figProps_mkFigure (ep rw av ls eps sps : List (Option Rat)) :
    figProps (mkFigure ep rw av ls eps sps) := by
  refine ⟨rfl, rfl, ⟨rfl, rfl, rfl, rfl, rfl⟩, ⟨rfl, rfl, rfl, rfl, rfl⟩,
    ⟨rfl, rfl, rfl, rfl, rfl⟩, ⟨rfl, rfl, rfl, rfl, rfl⟩, rfl, rfl, rfl, ?_, ?_⟩
  · show defaultLinewidth < 2
    rw [defaultLinewidth]
    norm_num
  · simp

/-- True of the events that write a file. -/
def isWrite : Event → Bool
  | .wroteFile _ _ _ _ => true
  | _ => false

/-- True of the events that write the file named `n`. -/
def writesTo (n : String) : Event → Bool
  | .wroteFile m _ _ _ => m == n
  | _ => false

/-- The working directory as a name-to-file map, holding the files a run
can write. -/
abbrev Dir : Type := List (String × (Figure × Nat × String))

/-- Writing file `n`: the new content replaces any previous file of that
name. -/
def insertReplace (d : Dir) (n : String) (x : Figure × Nat × String) : Dir :=
  (n, x) :: d.filter (fun p => p.1 != n)

/-- Effect of one event on the working directory: only file writes change
it. -/
def applyEvent (d : Dir) : Event → Dir
  | .printed _ => d
  | .showed => d
  | .wroteFile n fig dpi bb => insertReplace d n (fig, dpi, bb)

/-- Effect of a whole run (its event list) on the working directory. -/
def applyEvents (d : Dir) (evs : List Event) : Dir :=
  evs.foldl applyEvent d

/-- Filtering twice with the same predicate filters once. -/
lemma filter_self_idem {α : Type} (p : α → Bool) (l : List α) :
    (l.filter p).filter p = l.filter p := by
  induction l with
  | nil => rfl
  | cons a l ih =>
    cases hp : p a with
    | true => simp [List.filter_cons, hp, ih]
    | false => simp [List.filter_cons, hp, ih]

/-- Writing the same content to the same name twice leaves the directory
as after one write. -/
lemma insertReplace_idem (d : Dir) (n : String) (x : Figure × Nat × String) :
    insertReplace (insertReplace d n x) n x = insertReplace d n x := by
  simp only [insertReplace, List.filter_cons, bne_self_eq_false, Bool.false_eq_true,
    if_false, filter_self_idem]

/-- Scan of an event list checking that any show of the figure happens
only after some file has been saved; `saved` records whether a save was
already seen. -/
def savedBeforeShownFrom (saved : Bool) : List Event → Bool
  | [] => true
  | .wroteFile _ _ _ _ :: rest => savedBeforeShownFrom true rest
  | .showed :: rest => saved && savedBeforeShownFrom saved rest
  | .printed _ :: rest => savedBeforeShownFrom saved rest

/-- True when every show in the event list is preceded by a file save. -/
def savedBeforeShown (evs : List Event) : Bool :=
  savedBeforeShownFrom false evs

/-- The three-row log of the spec scenario: episodes 0, 1, 2 with rewards
1.0, 2.0, 1.5, Avg100 1.0, 1.5, 1.5, losses 0.9, 0.7, 0.6, epsilons 1.0,
0.9, 0.8 and throughputs 50, 55, 52. -/
def scenarioCsv : FileContent :=
  FileContent.table ["episode", "reward", "avg100", "loss", "epsilon", "steps_per_sec"]
    [[Cell.num 0, Cell.num 1, Cell.num 1, Cell.num (9 / 10), Cell.num 1, Cell.num 50],
     [Cell.num 1, Cell.num 2, Cell.num (3 / 2), Cell.num (7 / 10), Cell.num (9 / 10),
      Cell.num 55],
     [Cell.num 2, Cell.num (3 / 2), Cell.num (3 / 2), Cell.num (3 / 5), Cell.num (4 / 5),
      Cell.num 52]]

/-- The figure the script renders on the scenario log. -/
def scenarioFig : Figure :=
  mkFigure [some 0, some 1, some 2] [some 1, some 2, some (3 / 2)]
    [some 1, some (3 / 2), some (3 / 2)] [some (9 / 10), some (7 / 10), some (3 / 5)]
    [some 1, some (9 / 10), some (4 / 5)] [some 50, some 55, some 52]

/-- Claim C1: when `train-log.csv` does not exist, the run prints exactly
the not-found message, exits with code 1, and writes no output image. -/
theorem missing_file_exits_one :
    plot_training none =
        Outcome.exit 1 [Event.printed "Error: train-log.csv not found. Run training first."] ∧
      (eventsOf (plot_training none)).countP isWrite = 0 :=
  ⟨rfl, rfl⟩

/-- Claim C2: an input with a header row and zero data rows makes the run
print the empty-table message, exit with code 1 and write no image: the
whole outcome is that single printed line. -/
theorem header_only_reports_empty (header : List String) :
    plot_training (some (FileContent.table header [])) =
      Outcome.exit 1 [Event.printed "Error: train-log.csv is empty."] := by
  rfl

/-- Witness for C2 at the six-column header of the log. -/
theorem header_only_reports_empty_witness :
    plot_training
        (some (FileContent.table
          ["episode", "reward", "avg100", "loss", "epsilon", "steps_per_sec"] [])) =
      Outcome.exit 1 [Event.printed "Error: train-log.csv is empty."] :=
  header_only_reports_empty ["episode", "reward", "avg100", "loss", "epsilon", "steps_per_sec"]

/-- Claim C3: on a well-formed log (at least one row, the six required
columns present and numeric) the run writes exactly one image, prints one
confirmation line and exits with code 0. -/
theorem wellformed_saves_and_confirms (fc : FileContent) (h : wellFormed fc = true) :
    ∃ fig, plot_training (some fc) =
      Outcome.exit 0
        [Event.wroteFile "training_metrics.png" fig 150 "tight",
         Event.printed "✓ Saved visualization to training_metrics.png",
         Event.showed] := by
  cases fc with
  | emptyFile => exact absurd h (by simp [wellFormed])
  | table header rows =>
    obtain ⟨ep, rw2, av, ls, eps, sps, hrun⟩ := plot_success header rows h
    exact ⟨mkFigure ep rw2 av ls eps sps, hrun⟩

/-- Witness for C3 at the scenario log. -/
theorem wellformed_saves_and_confirms_witness :
    wellFormed scenarioCsv = true ∧
      ∃ fig, plot_training (some scenarioCsv) =
        Outcome.exit 0
          [Event.wroteFile "training_metrics.png" fig 150 "tight",
           Event.printed "✓ Saved visualization to training_metrics.png",
           Event.showed] :=
  ⟨by decide, wellformed_saves_and_confirms scenarioCsv (by decide)⟩

/-- Claim C4: on a non-empty table that is malformed — a required column
absent from the header, or a non-numeric value somewhere in a required
column — the run ends in an uncaught exception, not in a handled message:
the emptiness test is the only per-input validation. -/
theorem malformed_input_uncaught (header : List String) (rows : List (List Cell))
    (hne : rows ≠ []) (hbad : colsOk header rows = false) :
    ∃ e, plot_training (some (FileContent.table header rows)) = Outcome.uncaught e [] := by
  cases hany : rows.any (fun r => header.length < r.length) with
  | true =>
    exact ⟨PyError.parserError, by simp only [plot_training, read_csv, hany, if_true]⟩
  | false =>
    have hread : read_csv (.table header rows) = .ok ⟨header, rows⟩ := by
      rw [read_csv, hany]
      rfl
    have hemp : DataFrame.empty ⟨header, rows⟩ = false := by
      cases rows with
      | nil => exact absurd rfl hne
      | cons r rs => rfl
    cases hbf : buildFigure ⟨header, rows⟩ with
    | error e =>
      exact ⟨e, by simp only [plot_training, hread, hemp, Bool.false_eq_true, if_false, hbf]⟩
    | ok fig =>
      rw [colsOk_of_buildFigure_ok header rows fig hbf] at hbad
      exact absurd hbad (by simp)

/-- Witness for C4: a one-row log whose header lacks the reward column. -/
theorem malformed_input_uncaught_witness :
    ([[Cell.num 0]] : List (List Cell)) ≠ [] ∧
      colsOk ["episode"] [[Cell.num 0]] = false ∧
      ∃ e, plot_training (some (FileContent.table ["episode"] [[Cell.num 0]])) =
        Outcome.uncaught e [] :=
  ⟨by decide, by decide,
    malformed_input_uncaught ["episode"] [[Cell.num 0]] (by decide) (by decide)⟩

/-- Claim C5: a zero-byte `train-log.csv` does not reach the handled
empty-table path: `pd.read_csv` raises `EmptyDataError`, which the script
does not catch, so neither fixed message is printed and the run ends by
uncaught exception rather than `sys.exit(1)`. -/
theorem zero_byte_file_uncaught :
    plot_training (some FileContent.emptyFile) =
      Outcome.uncaught PyError.emptyDataError [] :=
  rfl

/-- Claim C6: on a well-formed log the saved image is a 2x2 grid of
subplots, each with axis labels, a title and translucent grid lines, and
the first subplot overlays exactly the episode-reward and Avg100 series,
with a legend, the Avg100 line heavier and in a distinct color. -/
theorem figure_layout_ok (fc : FileContent) (h : wellFormed fc = true) :
    ∃ fig, plot_training (some fc) =
        Outcome.exit 0
          [Event.wroteFile "training_metrics.png" fig 150 "tight",
           Event.printed "✓ Saved visualization to training_metrics.png",
           Event.showed] ∧
      figProps fig := by
  cases fc with
  | emptyFile => exact absurd h (by simp [wellFormed])
  | table header rows =>
    obtain ⟨ep, rw2, av, ls, eps, sps, hrun⟩ := plot_success header rows h
    exact ⟨mkFigure ep rw2 av ls eps sps, hrun, figProps_mkFigure ep rw2 av ls eps sps⟩

/-- Witness for C6 at the scenario log. -/
theorem figure_layout_ok_witness :
    wellFormed scenarioCsv = true ∧
      ∃ fig, plot_training (some scenarioCsv) =
          Outcome.exit 0
            [Event.wroteFile "training_metrics.png" fig 150 "tight",
             Event.printed "✓ Saved visualization to training_metrics.png",
             Event.showed] ∧
        figProps fig :=
  ⟨by decide, figure_layout_ok scenarioCsv (by decide)⟩

/-- Claim C7: every file write any run performs uses the fixed name
`training_metrics.png`, DPI 150 and the tight bounding box, whatever the
input file holds. -/
theorem output_params_fixed (fs : Option FileContent) (n : String) (fig : Figure)
    (dpi : Nat) (bb : String)
    (hmem : Event.wroteFile n fig dpi bb ∈ eventsOf (plot_training fs)) :
    n = "training_metrics.png" ∧ dpi = 150 ∧ bb = "tight" := by
  rcases plot_shape fs with h | h | h | ⟨fig2, h⟩ <;> rw [h] at hmem
  · simp at hmem
  · simp at hmem
  · simp at hmem
  · simp only [List.mem_cons, List.not_mem_nil, or_false] at hmem
    rcases hmem with hmem | hmem | hmem
    · obtain ⟨hn, _, hd, hb⟩ := Event.wroteFile.inj hmem
      exact ⟨hn, hd, hb⟩
    · exact absurd hmem (by simp)
    · exact absurd hmem (by simp)

/-- Witness for C7: the write performed on the scenario log. -/
theorem output_params_fixed_witness :
    "training_metrics.png" = "training_metrics.png" ∧ 150 = 150 ∧ "tight" = "tight" :=
  output_params_fixed (some scenarioCsv) "training_metrics.png" scenarioFig 150 "tight"
    (by
      have h : eventsOf (plot_training (some scenarioCsv)) =
          [Event.wroteFile "training_metrics.png" scenarioFig 150 "tight",
           Event.printed "✓ Saved visualization to training_metrics.png",
           Event.showed] := rfl
      rw [h]
      exact List.mem_cons_self _ _)

/-- Claim C8: a run writes at most one file, and never writes (hence never
mutates) the input file `train-log.csv`. -/
theorem at_most_one_write (fs : Option FileContent) :
    (eventsOf (plot_training fs)).countP isWrite ≤ 1 ∧
      (eventsOf (plot_training fs)).countP (writesTo "train-log.csv") = 0 := by
  rcases plot_shape fs with h | h | h | ⟨fig, h⟩ <;> rw [h]
  · exact ⟨by decide, by decide⟩
  · exact ⟨by decide, by decide⟩
  · exact ⟨by decide, by decide⟩
  · exact ⟨Nat.le_refl 1, rfl⟩

/-- Witness for C8 at the scenario log. -/
theorem at_most_one_write_witness :
    (eventsOf (plot_training (some scenarioCsv))).countP isWrite ≤ 1 ∧
      (eventsOf (plot_training (some scenarioCsv))).countP (writesTo "train-log.csv") = 0 :=
  at_most_one_write (some scenarioCsv)

/-- Claim C9: running the script twice on the same input leaves the
working directory exactly as one run does: the second run overwrites the
image with the same rendering and no state accumulates. -/
theorem rerun_idempotent (fs : Option FileContent) (d : Dir) :
    applyEvents (applyEvents d (eventsOf (plot_training fs))) (eventsOf (plot_training fs)) =
      applyEvents d (eventsOf (plot_training fs)) := by
  rcases plot_shape fs with h | h | h | ⟨fig, h⟩ <;> rw [h]
  · rfl
  · rfl
  · rfl
  · simp only [applyEvents, List.foldl_cons, List.foldl_nil, applyEvent]
    exact insertReplace_idem d _ _

/-- Witness for C9: two runs on the scenario log over an empty directory. -/
theorem rerun_idempotent_witness :
    applyEvents (applyEvents [] (eventsOf (plot_training (some scenarioCsv))))
        (eventsOf (plot_training (some scenarioCsv))) =
      applyEvents [] (eventsOf (plot_training (some scenarioCsv))) :=
  rerun_idempotent (some scenarioCsv) []

/-- Claim C10: in the event order of every run, the figure is shown only
after the image file has been saved: a failed or no-op display cannot
precede or replace the save. -/
theorem save_precedes_show (fs : Option FileContent) :
    savedBeforeShown (eventsOf (plot_training fs)) = true := by
  rcases plot_shape fs with h | h | h | ⟨fig, h⟩ <;> rw [h] <;> rfl

/-- Witness for C10 at the scenario log. -/
theorem save_precedes_show_witness :
    savedBeforeShown (eventsOf (plot_training (some scenarioCsv))) = true :=
  save_precedes_show (some scenarioCsv)

end PlotTraining
